import Mathlib

/-!
Shallow embedding of two modules of the anki repository:

* `pylib/anki/notes.py` — the `Note` record: field-map-indexed accessors,
  the `flush` persistence entry point, and the checksum-based
  duplicate/empty check `dupeOrEmpty`.
* `qt/aqt/mediasync.py` — the `MediaSyncer` controller: single-flight
  start, cooperative cancellation via `_want_stop`, the append-only sync
  log, the progress callback, and error classification at the completion
  boundary.

External collaborators (database, Rust backend, GUI, clock) are modelled
as explicit parameters or result fields.
-/

namespace Anki

/-- Helper functions from `anki/utils.py` (not part of the analysed
sources). `dupeOrEmpty` treats them as opaque: the embedding is
parameterised over them. -/
structure Utils where
  fieldChecksum : String → Nat
  stripHTMLMedia : String → String
  splitFields : String → List String

/-- In-memory note record (`Note` in `pylib/anki/notes.py`). `fmap`
models `self._fmap = col.models.fieldMap(...)`: a mapping from field name
to ordinal (the real map's values are `(ord, field-dict)` pairs; only the
ordinal, `[0]`, is used by the accessors). -/
structure Note where
  id : Nat
  guid : String
  mid : Nat
  mod : Int
  usn : Int
  tags : List String
  fields : List String
  fmap : List (String × Nat)
deriving DecidableEq

/-- A persisted row of the `notes` table, as seen by the SQL query in
`dupeOrEmpty` (`select flds from notes where csum = ? and id != ? and
mid = ?`): id, note-type id, stored checksum, joined fields blob. -/
structure DbRow where
  id : Nat
  mid : Nat
  csum : Nat
  flds : String
deriving DecidableEq

/-- Result of `Note.dupeOrEmpty`: the Python function returns `1` if the
first field is empty, `2` if it is a duplicate, `False` otherwise. -/
inductive DupeResult
  | empty
  | duplicate
  | unique
deriving DecidableEq

namespace Note

/-- `Note.dupeOrEmpty`. `not val.strip()` holds exactly when every
character of the first field is whitespace; `self.id or 0` equals
`self.id` for integer ids (it maps `0` to `0`). The SQL `where` clause
becomes a filter over the persisted rows, and the Python `for`-loop with
early `return 2` becomes `List.any`. The first field `self.fields[0]` is
read with default `""` (the analysed claims only concern notes that have
a first field). -/
def dupeOrEmpty (u : Utils) (db : List DbRow) (n : Note) : DupeResult :=
  let val := n.fields.getD 0 ""
  if val.data.all Char.isWhitespace then
    .empty
  else
    let csum := u.fieldChecksum val
    let candidates := db.filter fun r =>
      r.csum == csum && r.id != n.id && r.mid == n.mid
    if candidates.any fun r =>
        u.stripHTMLMedia ((u.splitFields r.flds).getD 0 "") ==
          u.stripHTMLMedia val then
      .duplicate
    else
      .unique

/-- `Note._fieldOrd`: look up the key's ordinal in the field map; an
absent key raises `KeyError(key)`, modelled as `Except.error key`. -/
def fieldOrd (n : Note) (key : String) : Except String Nat :=
  match n.fmap.lookup key with
  | some o => .ok o
  | none => .error key

/-- `Note.__getitem__`: `self.fields[self._fieldOrd(key)]` (read with
default `""`; the invariant `fields.length = fmap.size` keeps the
ordinal in bounds for real notes). -/
def getItem (n : Note) (key : String) : Except String String :=
  match fieldOrd n key with
  | .ok o => .ok (n.fields.getD o "")
  | .error e => .error e

/-- `Note.__setitem__`: `self.fields[self._fieldOrd(key)] = value`
(`List.set` is the in-place ordinal assignment). -/
def setItem (n : Note) (key : String) (value : String) :
    Except String Note :=
  match fieldOrd n key with
  | .ok o => .ok { n with fields := n.fields.set o value }
  | .error e => .error e

/-- The snapshot sent to the backend (`Note.to_backend_note`). -/
structure BackendNote where
  id : Nat
  guid : String
  ntid : Nat
  mtime_secs : Int
  usn : Int
  tags : List String
  fields : List String
deriving DecidableEq

/-- `Note.to_backend_note`: builds the backend snapshot field by field. -/
def to_backend_note (n : Note) : BackendNote :=
  { id := n.id
    guid := n.guid
    ntid := n.mid
    mtime_secs := n.mod
    usn := n.usn
    tags := n.tags
    fields := n.fields }

/-- `Note.flush`: `assert self.id != 0`, then
`update_note(to_backend_note())`. A failed assertion is `none`; a
successful flush yields the snapshot handed to the backend. -/
def flush (n : Note) : Option BackendNote :=
  if n.id ≠ 0 then some (to_backend_note n) else none

end Note

/-! ## Media sync controller (`qt/aqt/mediasync.py`) -/

/-- Modelled from the spec: structured progress snapshot delivered by the
sync backend (`anki.rsbackend.MediaSyncProgress`, not among the analysed
sources): counts of uploaded/downloaded files and deletions and of
checked files. -/
structure MediaSyncProgress where
  uploaded_files : Nat
  downloaded_files : Nat
  uploaded_deletions : Nat
  downloaded_deletions : Nat
  checked : Nat
deriving DecidableEq

/-- `LogEntry = Union[MediaSyncProgress, str]`. -/
inductive LogEntry
  | progress (p : MediaSyncProgress)
  | msg (s : String)
deriving DecidableEq

/-- `LogEntryWithTime`: a log entry stamped with `intTime()`. -/
structure LogEntryWithTime where
  time : Int
  entry : LogEntry
deriving DecidableEq

/-- Modelled from the spec: the typed progress event handed to the rust
progress callback (`anki.rsbackend.Progress`, not among the analysed
sources). Events whose `kind` is not `ProgressKind.MediaSyncProgress`
are collapsed into `other`. -/
inductive Progress
  | media (val : MediaSyncProgress)
  | other
deriving DecidableEq

/-- Mutable state of a `MediaSyncer`: the `_syncing` flag, the
`_want_stop` cancellation flag and the `_log` list. `dispatched` records
the entries passed to `gui_hooks.media_sync_did_progress` by
`_log_and_notify` (the observer notifications). -/
structure SyncerState where
  syncing : Bool
  want_stop : Bool
  log : List LogEntryWithTime
  dispatched : List LogEntryWithTime
deriving DecidableEq

namespace MediaSyncer

/-- `MediaSyncer._log_and_notify`: stamp the entry with the current time,
append it to `_log`, and dispatch it to the progress observers. `now` is
the value of `intTime()`. -/
def log_and_notify (now : Int) (entry : LogEntry) (s : SyncerState) :
    SyncerState :=
  let e : LogEntryWithTime := { time := now, entry := entry }
  { s with log := s.log ++ [e], dispatched := s.dispatched ++ [e] }

/-- `MediaSyncer.is_syncing`. -/
def is_syncing (s : SyncerState) : Bool :=
  s.syncing

/-- `MediaSyncer.start`. `hkey` is `mw.pm.sync_key()`,
`media_syncing_enabled` is `mw.pm.media_syncing_enabled()`. The
asynchronous launch of the backend task is outside the controller
state. -/
def start (hkey : Option String) (media_syncing_enabled : Bool)
    (now : Int) (s : SyncerState) : SyncerState :=
  if s.syncing then
    s
  else
    match hkey with
    | none => s
    | some _ =>
      if !media_syncing_enabled then
        log_and_notify now (.msg "Media syncing disabled.") s
      else
        let s1 := log_and_notify now (.msg "Media sync starting...") s
        { s1 with syncing := true, want_stop := false }

/-- `MediaSyncer._on_rust_progress`: non-media events pass `proceed`
through untouched; a media event is logged and notified, then the
callback returns `False` when `_want_stop` is set, else `proceed`. -/
def on_rust_progress (now : Int) (proceed : Bool) (progress : Progress)
    (s : SyncerState) : SyncerState × Bool :=
  match progress with
  | .other => (s, proceed)
  | .media val =>
    let s1 := log_and_notify now (.progress val) s
    if s1.want_stop then (s1, false) else (s1, proceed)

/-- `MediaSyncer.abort`: no-op unless syncing; otherwise log
"Media sync aborting..." and latch `_want_stop`. -/
def abort (now : Int) (s : SyncerState) : SyncerState :=
  if !is_syncing s then
    s
  else
    let s1 := log_and_notify now (.msg "Media sync aborting...") s
    { s1 with want_stop := true }

/-- `MediaSyncer.seconds_since_last_sync`: 0 while syncing; otherwise
`intTime() - last` where `last` is `_log[-1].time`, or `0` when the log
is empty. -/
def seconds_since_last_sync (now : Int) (s : SyncerState) : Int :=
  if is_syncing s then
    0
  else
    let last : Int :=
      match s.log.getLast? with
      | some e => e.time
      | none => 0
    now - last

/-- `SyncErrorKind` subtypes dispatched on in `_handle_sync_error`
(`other` stands for any unrecognised subtype). -/
inductive SyncErrorKind
  | auth_failed
  | server_error
  | media_check_required
  | resync_required
  | other
deriving DecidableEq

/-- `NetworkErrorKind` subtypes (`other` is any kind that is neither
offline nor timeout). -/
inductive NetworkErrorKind
  | offline
  | timeout
  | other
deriving DecidableEq

/-- Exception taxonomy seen by `_handle_sync_error`: `Interrupted`,
`SyncError(kind)`, `NetworkError(kind)`, `DBError`, or any other
exception (`unclassified`). `msg` is `str(exc)`. -/
inductive SyncException
  | interrupted
  | syncError (kind : SyncErrorKind) (msg : String)
  | networkError (kind : NetworkErrorKind) (msg : String)
  | dbError (msg : String)
  | unclassified (msg : String)
deriving DecidableEq

/-- Whether an exception falls outside the controller's taxonomy (the
final `else: raise exc` branch of `_handle_sync_error`). -/
def SyncException.isUnclassified : SyncException → Bool
  | .unclassified _ => true
  | _ => false

/-- Outcome of `_handle_sync_error`: the updated controller state, the
`showWarning` dialogs raised, whether `set_sync_key(None)` was called,
and the exception re-raised (if any). -/
structure HandleResult where
  state : SyncerState
  warnings : List String
  sync_key_cleared : Bool
  reraised : Option SyncException
deriving DecidableEq

/-- `MediaSyncer._handle_sync_error`: `Interrupted` → log "aborted";
otherwise log "failed" then dispatch on the exception class and subtype,
showing a warning for every classified error; an unclassified exception
is re-raised. -/
def handle_sync_error (now : Int) (s : SyncerState)
    (exc : SyncException) : HandleResult :=
  match exc with
  | .interrupted =>
    { state := log_and_notify now (.msg "Media sync aborted.") s
      warnings := []
      sync_key_cleared := false
      reraised := none }
  | .syncError kind m =>
    let s1 := log_and_notify now (.msg "Media sync failed.") s
    match kind with
    | .auth_failed =>
      { state := s1
        warnings :=
          ["AnkiWeb ID or password was incorrect; please try again."]
        sync_key_cleared := true
        reraised := none }
    | .server_error =>
      { state := s1
        warnings :=
          ["AnkiWeb encountered a problem. Please try again in a few minutes."]
        sync_key_cleared := false
        reraised := none }
    | .media_check_required =>
      { state := s1
        warnings := ["Please use the Tools>Check Media menu option."]
        sync_key_cleared := false
        reraised := none }
    | .resync_required =>
      { state := s1
        warnings :=
          ["Please sync again, and post on the support forum if this message keeps appearing."]
        sync_key_cleared := false
        reraised := none }
    | .other =>
      { state := s1
        warnings := ["Unexpected error: " ++ m]
        sync_key_cleared := false
        reraised := none }
  | .networkError kind m =>
    let s1 := log_and_notify now (.msg "Media sync failed.") s
    match kind with
    | .offline =>
      { state := s1
        warnings :=
          ["Syncing failed; please check your internet connection." ++
            "\n\n" ++ "Detailed error: " ++ m]
        sync_key_cleared := false
        reraised := none }
    | .timeout =>
      { state := s1
        warnings :=
          ["Syncing failed; please check your internet connection." ++
            "\n\n" ++ "Detailed error: " ++ m]
        sync_key_cleared := false
        reraised := none }
    | .other =>
      { state := s1
        warnings := ["Unexpected error: " ++ m]
        sync_key_cleared := false
        reraised := none }
  | .dbError m =>
    { state := log_and_notify now (.msg "Media sync failed.") s
      warnings := ["Problem accessing the media database: " ++ m]
      sync_key_cleared := false
      reraised := none }
  | .unclassified m =>
    { state := log_and_notify now (.msg "Media sync failed.") s
      warnings := []
      sync_key_cleared := false
      reraised := some (.unclassified m) }

/-- A run of successive invocations of the rust progress callback:
`evs` lists the `(proceed, progress)` arguments of each call, in order;
the result pairs the final state with the list of values the callback
returned to the backend. -/
def run_callbacks (now : Int) (s : SyncerState)
    (evs : List (Bool × Progress)) : SyncerState × List Bool :=
  match evs with
  | [] => (s, [])
  | (pr, p) :: rest =>
    let step := on_rust_progress now pr p s
    let tail := run_callbacks now step.1 rest
    (tail.1, step.2 :: tail.2)

end MediaSyncer

/-! ## Sample values used by the concrete witnesses -/

/-- Sample utility functions: length as checksum, identity stripping,
singleton splitting. -/
def sampleUtils : Utils :=
  { fieldChecksum := fun s => s.length
    stripHTMLMedia := fun s => s
    splitFields := fun s => [s] }

/-- Sample in-memory note with two fields. -/
def sampleNote : Note :=
  { id := 1
    guid := "g"
    mid := 5
    mod := 3
    usn := 4
    tags := []
    fields := ["hello", "b"]
    fmap := [("Front", 0), ("Back", 1)] }

/-- Sample database containing a row that collides with
`sampleNote`'s first field under `sampleUtils`. -/
def sampleDb : List DbRow :=
  [{ id := 2, mid := 5, csum := 5, flds := "hello" }]

/-- Sample progress snapshot. -/
def sampleProgress : MediaSyncProgress :=
  { uploaded_files := 0
    downloaded_files := 0
    uploaded_deletions := 0
    downloaded_deletions := 0
    checked := 1 }

/-- Controller state before any sync. -/
def idleState : SyncerState :=
  { syncing := false, want_stop := false, log := [], dispatched := [] }

/-- Controller state during a sync run. -/
def syncingState : SyncerState :=
  { syncing := true, want_stop := false, log := [], dispatched := [] }

/-- Controller state during a sync run after `abort()` latched the
cancellation flag. -/
def abortedState : SyncerState :=
  { syncing := true, want_stop := true, log := [], dispatched := [] }

/-! ## Theorems about the note record -/

/-- C7: for every record whose first field is empty or whitespace-only
after trimming, `dupeOrEmpty` returns `Empty`, regardless of the
persisted records (and of the helper functions). -/
theorem dupeOrEmpty_empty_first_field (u : Utils) (db : List DbRow)
    (n : Note)
    (h : (n.fields.getD 0 "").data.all Char.isWhitespace = true) :
    Note.dupeOrEmpty u db n = .empty := by
  simp only [Note.dupeOrEmpty]
  rw [if_pos h]

/-- Witness for `dupeOrEmpty_empty_first_field` at a concrete
whitespace-only first field and a non-empty database. -/
theorem dupeOrEmpty_empty_first_field_witness :
    Note.dupeOrEmpty sampleUtils sampleDb
      { sampleNote with fields := [" ", "b"] } = .empty :=
  dupeOrEmpty_empty_first_field sampleUtils sampleDb
    { sampleNote with fields := [" ", "b"] } (by decide)

/-- The candidate test of `dupeOrEmpty`, restated as an existential over
the persisted rows. -/
theorem dupe_candidates_any_iff (u : Utils) (db : List DbRow) (n : Note) :
    ((db.filter fun r =>
        r.csum == u.fieldChecksum (n.fields.getD 0 "") &&
          r.id != n.id && r.mid == n.mid).any fun r =>
      u.stripHTMLMedia ((u.splitFields r.flds).getD 0 "") ==
        u.stripHTMLMedia (n.fields.getD 0 "")) = true ↔
    ∃ r ∈ db, r.csum = u.fieldChecksum (n.fields.getD 0 "") ∧
      r.id ≠ n.id ∧ r.mid = n.mid ∧
      u.stripHTMLMedia ((u.splitFields r.flds).getD 0 "") =
        u.stripHTMLMedia (n.fields.getD 0 "") := by
  simp [List.any_eq_true, List.mem_filter, and_assoc]

/-- C1: for every record whose first field is non-empty after trimming,
`dupeOrEmpty` returns `Duplicate` exactly when some persisted row with
the same checksum, the same note-type id and a different record id has a
stripped first field byte-for-byte equal to the stripped first field of
the current record, and returns `Unique` exactly when no such row
exists. -/
theorem dupeOrEmpty_nonempty_spec (u : Utils) (db : List DbRow) (n : Note)
    (h : ¬ (n.fields.getD 0 "").data.all Char.isWhitespace = true) :
    (Note.dupeOrEmpty u db n = .duplicate ↔
      ∃ r ∈ db, r.csum = u.fieldChecksum (n.fields.getD 0 "") ∧
        r.id ≠ n.id ∧ r.mid = n.mid ∧
        u.stripHTMLMedia ((u.splitFields r.flds).getD 0 "") =
          u.stripHTMLMedia (n.fields.getD 0 "")) ∧
    (Note.dupeOrEmpty u db n = .unique ↔
      ¬ ∃ r ∈ db, r.csum = u.fieldChecksum (n.fields.getD 0 "") ∧
        r.id ≠ n.id ∧ r.mid = n.mid ∧
        u.stripHTMLMedia ((u.splitFields r.flds).getD 0 "") =
          u.stripHTMLMedia (n.fields.getD 0 "")) := by
  rw [← dupe_candidates_any_iff u db n]
  simp only [Note.dupeOrEmpty]
  rw [if_neg h]
  by_cases hc :
      ((db.filter fun r =>
          r.csum == u.fieldChecksum (n.fields.getD 0 "") &&
            r.id != n.id && r.mid == n.mid).any fun r =>
        u.stripHTMLMedia ((u.splitFields r.flds).getD 0 "") ==
          u.stripHTMLMedia (n.fields.getD 0 "")) = true <;>
    simp [hc, and_assoc]

/-- Witness for `dupeOrEmpty_nonempty_spec` at a concrete note and a
database holding a colliding row. -/
theorem dupeOrEmpty_nonempty_spec_witness :
    (Note.dupeOrEmpty sampleUtils sampleDb sampleNote = .duplicate ↔
      ∃ r ∈ sampleDb,
        r.csum = sampleUtils.fieldChecksum (sampleNote.fields.getD 0 "") ∧
        r.id ≠ sampleNote.id ∧ r.mid = sampleNote.mid ∧
        sampleUtils.stripHTMLMedia
            ((sampleUtils.splitFields r.flds).getD 0 "") =
          sampleUtils.stripHTMLMedia (sampleNote.fields.getD 0 "")) ∧
    (Note.dupeOrEmpty sampleUtils sampleDb sampleNote = .unique ↔
      ¬ ∃ r ∈ sampleDb,
        r.csum = sampleUtils.fieldChecksum (sampleNote.fields.getD 0 "") ∧
        r.id ≠ sampleNote.id ∧ r.mid = sampleNote.mid ∧
        sampleUtils.stripHTMLMedia
            ((sampleUtils.splitFields r.flds).getD 0 "") =
          sampleUtils.stripHTMLMedia (sampleNote.fields.getD 0 "")) :=
  dupeOrEmpty_nonempty_spec sampleUtils sampleDb sampleNote (by decide)

/-- C9: `setItem k v` followed by `getItem k` returns `v` for a key
present in the field map (with its ordinal in bounds, as guaranteed by
the `fields.length = fmap.size` invariant); on a key absent from the
field map both accessors fail with the unknown-field error carrying the
key. -/
theorem note_set_get_roundtrip (n : Note) (k v : String) (o : Nat)
    (hk : n.fmap.lookup k = some o) (hb : o < n.fields.length) :
    (∃ n2, Note.setItem n k v = .ok n2 ∧ Note.getItem n2 k = .ok v) ∧
    ∀ k2, n.fmap.lookup k2 = none →
      Note.getItem n k2 = .error k2 ∧ Note.setItem n k2 v = .error k2 := by
  constructor
  · refine ⟨{ n with fields := n.fields.set o v }, ?_, ?_⟩
    · simp [Note.setItem, Note.fieldOrd, hk]
    · simp only [Note.getItem, Note.fieldOrd, hk]
      rw [List.getD_eq_getElem _ _ (by simpa using hb)]
      simp
  · intro k2 h2
    simp [Note.getItem, Note.setItem, Note.fieldOrd, h2]

/-- Witness for `note_set_get_roundtrip` at a concrete two-field note. -/
theorem note_set_get_roundtrip_witness :
    (∃ n2, Note.setItem sampleNote "Back" "v" = .ok n2 ∧
      Note.getItem n2 "Back" = .ok "v") ∧
    ∀ k2, sampleNote.fmap.lookup k2 = none →
      Note.getItem sampleNote k2 = .error k2 ∧
      Note.setItem sampleNote k2 "v" = .error k2 :=
  note_set_get_roundtrip sampleNote "Back" "v" 1 (by decide) (by decide)

/-- C10: `flush` has the precondition `id ≠ 0`: on a never-persisted
record (`id = 0`) the assertion fails and nothing is persisted, and a
successful flush hands the backend a snapshot carrying the note's own id
(the persist path never assigns a fresh id). -/
theorem note_flush_spec (n : Note) :
    Note.flush n =
      (if n.id = 0 then none else some (Note.to_backend_note n)) ∧
    (Note.to_backend_note n).id = n.id := by
  by_cases h : n.id = 0 <;>
    simp [Note.flush, Note.to_backend_note, h]

/-! ## Theorems about the media sync controller -/

/-- C4: a `start()` call while a sync is already running is a complete
no-op: the whole controller state — syncing flag, cancellation flag and
log — is unchanged, so at most one sync run is in flight at a time. -/
theorem start_noop_when_syncing (hkey : Option String) (enabled : Bool)
    (now : Int) (s : SyncerState) (h : s.syncing = true) :
    MediaSyncer.start hkey enabled now s = s := by
  simp [MediaSyncer.start, h]

/-- Witness for `start_noop_when_syncing` at a concrete syncing state. -/
theorem start_noop_when_syncing_witness :
    MediaSyncer.start (some "k") true 3 syncingState = syncingState :=
  start_noop_when_syncing (some "k") true 3 syncingState rfl

/-- Counterexample to C3 as stated: `start()` with absent credentials on
an idle controller appends no log entry at all (the code returns before
logging), contradicting the claim that both did-not-start outcomes are
logged. -/
theorem start_no_credentials_counterexample :
    ¬ 0 < (MediaSyncer.start none true 5 idleState).log.length := by
  decide

/-- C3 amended: on an idle controller, `start()` with absent credentials
is a complete no-op — it does not transition to Syncing and appends no
log entry — while `start()` with credentials present but media syncing
disabled does not transition to Syncing and appends exactly one
"Media syncing disabled." log entry. -/
theorem start_did_not_start_spec (k : String) (enabled : Bool) (now : Int)
    (s : SyncerState) (h : s.syncing = false) :
    MediaSyncer.start none enabled now s = s ∧
    MediaSyncer.start (some k) false now s =
      { s with
        log := s.log ++ [⟨now, .msg "Media syncing disabled."⟩]
        dispatched :=
          s.dispatched ++ [⟨now, .msg "Media syncing disabled."⟩] } := by
  constructor <;>
    simp [MediaSyncer.start, MediaSyncer.log_and_notify, h]

/-- Witness for `start_did_not_start_spec` at the concrete idle state. -/
theorem start_did_not_start_spec_witness :
    MediaSyncer.start none true 5 idleState = idleState ∧
    MediaSyncer.start (some "k") false 5 idleState =
      { idleState with
        log := idleState.log ++ [⟨5, .msg "Media syncing disabled."⟩]
        dispatched :=
          idleState.dispatched ++
            [⟨5, .msg "Media syncing disabled."⟩] } :=
  start_did_not_start_spec "k" true 5 idleState rfl

/-- C8: `abort()` on a non-syncing controller is a no-op leaving the
whole state (log and cancellation flag included) unchanged; on a syncing
controller it appends exactly one "aborting" entry, sets the
cancellation flag, and leaves the syncing flag untouched. -/
theorem abort_spec (now : Int) (s : SyncerState) :
    MediaSyncer.abort now s =
      if s.syncing then
        { s with
          want_stop := true
          log := s.log ++ [⟨now, .msg "Media sync aborting..."⟩]
          dispatched :=
            s.dispatched ++ [⟨now, .msg "Media sync aborting..."⟩] }
      else s := by
  by_cases h : s.syncing <;>
    simp [MediaSyncer.abort, MediaSyncer.is_syncing,
      MediaSyncer.log_and_notify, h]

/-- Counterexample to C2 as stated: on an idle controller with an empty
log, `seconds_since_last_sync` at time 100 returns `100 - 0 = 100`, not
0 (the claim's "returns 0 when the log is empty" is wrong; the code
subtracts a zero timestamp from the current time). -/
theorem seconds_since_last_sync_empty_counterexample :
    ¬ MediaSyncer.seconds_since_last_sync 100 idleState = 0 := by
  decide

/-- C2 amended: `seconds_since_last_sync` returns 0 whenever a sync is
in progress; otherwise it returns the current time minus the timestamp
of the most recent log entry, where an empty log contributes timestamp
0 — so on an empty log it returns the current time itself, not 0. -/
theorem seconds_since_last_sync_spec (now : Int) (s : SyncerState) :
    MediaSyncer.seconds_since_last_sync now s =
      if s.syncing then 0
      else now - (s.log.getLast?.map LogEntryWithTime.time).getD 0 := by
  by_cases h : s.syncing
  · simp [MediaSyncer.seconds_since_last_sync, MediaSyncer.is_syncing, h]
  · rcases hl : s.log.getLast? with _ | e <;>
      simp [MediaSyncer.seconds_since_last_sync, MediaSyncer.is_syncing,
        h, hl]

/-- The rust progress callback never changes the cancellation flag: once
`_want_stop` is latched it stays latched across callback invocations. -/
theorem on_rust_progress_want_stop (now : Int) (pr : Bool)
    (p : Progress) (s : SyncerState) :
    (MediaSyncer.on_rust_progress now pr p s).1.want_stop =
      s.want_stop := by
  cases p <;>
    simp [MediaSyncer.on_rust_progress, MediaSyncer.log_and_notify]
  split <;> rfl

/-- C5: once `abort()` has latched the cancellation flag, every
subsequent progress-callback invocation carrying a media-sync progress
event returns `false` (do not proceed) to the backend, while non-media
events keep passing `proceed` through: along any run of callback
invocations from a cancelled state, the backend is never told to proceed
at a media-sync checkpoint. -/
theorem cancellation_latched (now : Int) (s : SyncerState)
    (evs : List (Bool × Progress)) (h : s.want_stop = true) :
    (MediaSyncer.run_callbacks now s evs).2 =
      evs.map fun e =>
        match e.2 with
        | .media _ => false
        | .other => e.1 := by
  induction evs generalizing s with
  | nil => simp [MediaSyncer.run_callbacks]
  | cons e rest ih =>
    obtain ⟨pr, p⟩ := e
    have hw :
        (MediaSyncer.on_rust_progress now pr p s).1.want_stop = true := by
      rw [on_rust_progress_want_stop]; exact h
    cases p with
    | media val =>
      simp [MediaSyncer.run_callbacks, MediaSyncer.on_rust_progress,
        MediaSyncer.log_and_notify, h]
      exact ih _ rfl
    | other =>
      simp [MediaSyncer.run_callbacks, MediaSyncer.on_rust_progress]
      exact ih s h

/-- Witness for `cancellation_latched`: from a cancelled state, a
media-sync event answers `false` and another progress kind passes its
`proceed` argument through. -/
theorem cancellation_latched_witness :
    (MediaSyncer.run_callbacks 7 abortedState
        [(true, Progress.media sampleProgress),
          (true, Progress.other)]).2 =
      [(true, Progress.media sampleProgress),
        (true, Progress.other)].map (fun e =>
        match e.2 with
        | .media _ => false
        | .other => e.1) :=
  cancellation_latched 7 abortedState
    [(true, Progress.media sampleProgress), (true, Progress.other)] rfl

/-- C6: at the completion boundary every classified failure —
cancellation, sync error, network error, storage error — is caught
(nothing re-raised) and turned into exactly one new log entry that is
also dispatched to the user-facing observers, with a warning dialog for
every classified error other than cancellation; an unclassified failure
is the only one re-raised upward (after the failure log entry). -/
theorem handle_sync_error_policy (now : Int) (s : SyncerState)
    (exc : MediaSyncer.SyncException) :
    (MediaSyncer.handle_sync_error now s exc).reraised =
      (if exc.isUnclassified then some exc else none) ∧
    (MediaSyncer.handle_sync_error now s exc).state.log.length =
      s.log.length + 1 ∧
    (MediaSyncer.handle_sync_error now s exc).state.dispatched.length =
      s.dispatched.length + 1 ∧
    (MediaSyncer.handle_sync_error now s exc).warnings.length =
      (match exc with
       | .interrupted => 0
       | .unclassified _ => 0
       | _ => 1) := by
  cases exc with
  | interrupted =>
    simp [MediaSyncer.handle_sync_error, MediaSyncer.log_and_notify,
      MediaSyncer.SyncException.isUnclassified]
  | syncError kind m =>
    cases kind <;>
      simp [MediaSyncer.handle_sync_error, MediaSyncer.log_and_notify,
        MediaSyncer.SyncException.isUnclassified]
  | networkError kind m =>
    cases kind <;>
      simp [MediaSyncer.handle_sync_error, MediaSyncer.log_and_notify,
        MediaSyncer.SyncException.isUnclassified]
  | dbError m =>
    simp [MediaSyncer.handle_sync_error, MediaSyncer.log_and_notify,
      MediaSyncer.SyncException.isUnclassified]
  | unclassified m =>
    simp [MediaSyncer.handle_sync_error, MediaSyncer.log_and_notify,
      MediaSyncer.SyncException.isUnclassified]

end Anki
